import Mathlib

/-!
Shallow embedding of the plugin-management layer of flake8
(src/flake8/plugins/manager.py) and of the formatter base class
(src/flake8/formatting/base.py).

Python exceptions are modelled with `Option Exc` / `Except Exc` results;
object mutation is modelled by explicit state passing: every method that
mutates `self` returns the updated state.  Where a claim speaks about
"how many times" an underlying operation ran, the embedding additionally
returns a call counter.
-/

/-- Python exceptions that occur in the modelled code paths.
`typeError` carries a flag recording whether the TypeError was raised by
the call machinery (arity mismatch, `false`) or from inside the body of
the called hook (`true`); Python's `except TypeError` cannot distinguish
the two, and neither does anything in the model. -/
inductive Exc where
  | indexError : Exc
  | typeError (raisedInsideBody : Bool) : Exc
  | other (code : Nat) : Exc
  deriving DecidableEq, Repr

/-- Whether an exception is a `TypeError` (of either origin). -/
def Exc.isTypeError : Exc → Bool
  | Exc.typeError _ => true
  | _ => false

/-- Behaviour of a loaded object's `parse_options` attribute: the outcome
of calling it with three arguments `(optmanager, options, extra_args)` and
the outcome of calling it with the single argument `(options)`.
`none` means the call returns normally, `some e` means it raises `e`. -/
structure ParseOptionsHook where
  onThree : Option Exc
  onOne : Option Exc
  deriving DecidableEq, Repr

/-- A Python value as far as this model needs one: `PyObj.none` is Python's
`None`, and `PyObj.obj id hook` is any other object, identified by `id`,
whose `parse_options` attribute (if any) behaves as `hook`
(`getattr(x, 'parse_options', None)` yields `Option.none` when absent). -/
inductive PyObj where
  | none : PyObj
  | obj (id : Nat) (hook : Option ParseOptionsHook) : PyObj
  deriving DecidableEq, Repr

/-- Whether a Python value `is None`. -/
def PyObj.isNone : PyObj → Bool
  | PyObj.none => true
  | PyObj.obj _ _ => false

/-- Decidable equality for `Except`, needed to derive it for structures
with `Except`-typed fields. -/
instance {e a : Type} [DecidableEq e] [DecidableEq a] : DecidableEq (Except e a)
  | Except.error x, Except.error y =>
      if h : x = y then Decidable.isTrue (by rw [h])
      else Decidable.isFalse (by intro hh; cases hh; exact h rfl)
  | Except.error _, Except.ok _ => Decidable.isFalse (by intro hh; cases hh)
  | Except.ok _, Except.error _ => Decidable.isFalse (by intro hh; cases hh)
  | Except.ok x, Except.ok y =>
      if h : x = y then Decidable.isTrue (by rw [h])
      else Decidable.isFalse (by intro hh; cases hh; exact h rfl)

/-- The setuptools `EntryPoint` as `Plugin._load` observes it.
`hasResolveAndRequire` models `getattr(ep, 'resolve', None)` and
`getattr(ep, 'require', None)` both being truthy.  `requireResult` is the
outcome of `ep.require()` (`none` = success).  `resolveResult` is the
outcome of `ep.resolve()`.  `loadTrue`/`loadFalse` are the outcomes of the
fallback `ep.load(require=True)` / `ep.load(require=False)`. -/
structure EntryPoint where
  hasResolveAndRequire : Bool
  requireResult : Option Exc
  resolveResult : Except Exc PyObj
  loadTrue : Except Exc PyObj
  loadFalse : Except Exc PyObj
  deriving DecidableEq, Repr

/-- The state of a `flake8.plugins.manager.Plugin`.
`plugin` is the `self._plugin` attribute, initially `PyObj.none` (Python
`None`).  `parameters` models the result of `utils.parameters_for(self)`
(the ordered declared parameter names of the plugin's entry function);
`utils.py` itself is outside the embedded sources and `parameters_for` is
deterministic for a fixed plugin, so the `_parameters` write-once cache is
observationally the stored list. -/
structure Plugin where
  name : String
  entry_point : EntryPoint
  plugin : PyObj
  parameters : List String
  deriving DecidableEq, Repr

/-- Embedding of `Plugin._load(verify_requirements)`.
Returns `(raised exception?, post-state, resolution call count)`, where the
count tallies invocations of `ep.resolve()` / `ep.load(...)`.  Each raise
point returns the state as it stands there; the only mutation,
`self._plugin = ...`, is sequenced after the call that can raise. -/
def Plugin.load_aux (p : Plugin) (verify_requirements : Bool) :
    Option Exc × Plugin × Nat :=
  if p.entry_point.hasResolveAndRequire then
    if verify_requirements then
      match p.entry_point.requireResult with
      | some e => (some e, p, 0)
      | Option.none =>
        match p.entry_point.resolveResult with
        | Except.error e => (some e, p, 1)
        | Except.ok v => (Option.none, { p with plugin := v }, 1)
    else
      match p.entry_point.resolveResult with
      | Except.error e => (some e, p, 1)
      | Except.ok v => (Option.none, { p with plugin := v }, 1)
  else
    match (if verify_requirements then p.entry_point.loadTrue
           else p.entry_point.loadFalse) with
    | Except.error e => (some e, p, 1)
    | Except.ok v => (Option.none, { p with plugin := v }, 1)

/-- The `FailedToLoadPlugin` error: carries the failing plugin (the state
of `self` at raise time) and the original exception. -/
inductive LoadError where
  | failedToLoadPlugin (plugin : Plugin) (original : Exc) : LoadError
  deriving DecidableEq, Repr

/-- Embedding of `Plugin.load_plugin(verify_requirements)`.
If `self._plugin is None` it runs `_load`, wrapping any raised exception
in `FailedToLoadPlugin`; otherwise it does nothing.
Returns `(raised error?, post-state, resolution call count)`. -/
def Plugin.load_plugin (p : Plugin) (verify_requirements : Bool) :
    Option LoadError × Plugin × Nat :=
  if (p.plugin).isNone then
    match p.load_aux verify_requirements with
    | (some e, p1, n) => (some (LoadError.failedToLoadPlugin p1 e), p1, n)
    | (Option.none, p1, n) => (Option.none, p1, n)
  else
    (Option.none, p, 0)

/-- Opaque identifiers standing for the Python values passed to
`provide_options` (`optmanager`, `options`, `extra_args`). -/
abbrev Val := Nat

/-- One call made to a plugin's `parse_options` hook, recording which
arguments were handed to it: `three optmanager options extra_args` for the
full-signature attempt, `one options` for the single-argument fallback. -/
inductive HookCall where
  | three (optmanager options extra_args : Val) : HookCall
  | one (options : Val) : HookCall
  deriving DecidableEq, Repr

/-- The `getattr(x, 'parse_options', None)` probe on a loaded object. -/
def PyObj.parseOptionsAttr : PyObj → Option ParseOptionsHook
  | PyObj.none => Option.none
  | PyObj.obj _ hook => hook

/-- Embedding of the body of `Plugin.provide_options` given the result of
the `getattr` probe.  Returns `(raised exception?, calls made in order)`:
if the hook is absent nothing happens; otherwise the three-argument call is
attempted, and `except TypeError` (any `TypeError`, whatever its origin)
triggers the single-argument fallback, whose outcome — success or any
exception — is final. -/
def provideOptionsHook (hook : Option ParseOptionsHook)
    (optmanager options extra_args : Val) : Option Exc × List HookCall :=
  match hook with
  | Option.none => (Option.none, [])
  | some h =>
    match h.onThree with
    | Option.none => (Option.none, [HookCall.three optmanager options extra_args])
    | some e =>
      if e.isTypeError then
        (h.onOne, [HookCall.three optmanager options extra_args,
                   HookCall.one options])
      else
        (some e, [HookCall.three optmanager options extra_args])

/-- Embedding of `Plugin.provide_options(optmanager, options, extra_args)`
on a plugin whose object is already loaded (the `self.plugin` property read
returns the cached object; its lazy-load aspect is `Plugin.load_plugin`). -/
def Plugin.provide_options (p : Plugin) (optmanager options extra_args : Val) :
    Option Exc × List HookCall :=
  provideOptionsHook (p.plugin).parseOptionsAttr optmanager options extra_args

/-- The state of a `PluginTypeManager`: the owned `PluginManager`'s plugins
in `names` (discovery) order, and the `plugins_loaded` flag. -/
structure PluginTypeManager where
  plugins : List Plugin
  plugins_loaded : Bool
  deriving DecidableEq, Repr

/-- Embedding of `list(self.manager.map(load_plugin))` inside
`PluginTypeManager.load_plugins`: calls `Plugin.load_plugin(False)` on each
plugin in order.  The first raised error aborts the iteration (later
plugins untouched, earlier ones remain loaded); the `Nat` totals the
resolution calls performed. -/
def loadAll : List Plugin → Option LoadError × List Plugin × Nat
  | [] => (Option.none, [], 0)
  | p :: rest =>
    match p.load_plugin false with
    | (some e, p1, n) => (some e, p1 :: rest, n)
    | (Option.none, p1, n) =>
      match loadAll rest with
      | (err, rest1, m) => (err, p1 :: rest1, n + m)

/-- Embedding of `PluginTypeManager.load_plugins()`: returns immediately if
`plugins_loaded` is already true; otherwise loads every plugin and sets
`plugins_loaded := true` only when no load raised (the assignment is
sequenced after the whole loop, so a propagating exception skips it).
Returns `(raised error?, post-state, resolution call count)`. -/
def PluginTypeManager.load_plugins (m : PluginTypeManager) :
    Option LoadError × PluginTypeManager × Nat :=
  if m.plugins_loaded then
    (Option.none, m, 0)
  else
    match loadAll m.plugins with
    | (some e, ps, n) => (some e, { plugins := ps, plugins_loaded := false }, n)
    | (Option.none, ps, n) => (Option.none, { plugins := ps, plugins_loaded := true }, n)

/-- The state of a `Checkers` manager as the classification claims need it:
the plugins iterated by `self.plugins.values()`, and the three write-once
attributes `_ast_plugins`, `_logical_line_plugins`, `_physical_line_plugins`
(`Option.none` when the attribute is not yet set, so that
`getattr(self, '_ast_plugins', [])` is `cache.getD []`). -/
structure Checkers where
  plugins : List Plugin
  ast_cache : Option (List Plugin)
  logical_cache : Option (List Plugin)
  physical_cache : Option (List Plugin)
  deriving DecidableEq, Repr

/-- Embedding of the generator `Checkers.checks_expecting(argument_name)`
as forced by `list(...)`: for each plugin in order, test
`argument_name == plugin.parameters[0]` — which raises `IndexError` when
the parameter list is empty — and collect the matches.  A raise discards
the partial sequence. -/
def checksExpectingList (argument_name : String) :
    List Plugin → Except Exc (List Plugin)
  | [] => Except.ok []
  | p :: rest =>
    match p.parameters with
    | [] => Except.error Exc.indexError
    | a :: _ =>
      if argument_name = a then
        match checksExpectingList argument_name rest with
        | Except.error e => Except.error e
        | Except.ok ps => Except.ok (p :: ps)
      else
        checksExpectingList argument_name rest

/-- `Checkers.checks_expecting` over the manager's plugins. -/
def Checkers.checks_expecting (c : Checkers) (argument_name : String) :
    Except Exc (List Plugin) :=
  checksExpectingList argument_name c.plugins

/-- Embedding of the property `Checkers.ast_plugins`:
`plugins = getattr(self, '_ast_plugins', []); if not plugins: recompute and
store`.  Returns `(result with post-state, whether checks_expecting ran)`;
note the guard is the Python truthiness of the cached LIST, so an empty
cached list triggers recomputation. -/
def Checkers.ast_plugins (c : Checkers) :
    Except Exc (List Plugin × Checkers) × Bool :=
  let plugins := c.ast_cache.getD []
  if plugins.isEmpty then
    match c.checks_expecting "tree" with
    | Except.error e => (Except.error e, true)
    | Except.ok ps => (Except.ok (ps, { c with ast_cache := some ps }), true)
  else
    (Except.ok (plugins, c), false)

/-- Embedding of the property `Checkers.logical_line_plugins` (same shape
as `ast_plugins`, argument name `"logical_line"`, cache
`_logical_line_plugins`). -/
def Checkers.logical_line_plugins (c : Checkers) :
    Except Exc (List Plugin × Checkers) × Bool :=
  let plugins := c.logical_cache.getD []
  if plugins.isEmpty then
    match c.checks_expecting "logical_line" with
    | Except.error e => (Except.error e, true)
    | Except.ok ps => (Except.ok (ps, { c with logical_cache := some ps }), true)
  else
    (Except.ok (plugins, c), false)

/-- Embedding of the property `Checkers.physical_line_plugins` (same shape
as `ast_plugins`, argument name `"physical_line"`, cache
`_physical_line_plugins`). -/
def Checkers.physical_line_plugins (c : Checkers) :
    Except Exc (List Plugin × Checkers) × Bool :=
  let plugins := c.physical_cache.getD []
  if plugins.isEmpty then
    match c.checks_expecting "physical_line" with
    | Except.error e => (Except.error e, true)
    | Except.ok ps => (Except.ok (ps, { c with physical_cache := some ps }), true)
  else
    (Except.ok (plugins, c), false)

/-- The slice of the parsed options object that `BaseFormatter.__init__`
reads: `options.output_file`.  `Option.none` models the attribute being
`None`; a present string may still be empty (and Python-falsy). -/
structure Options where
  output_file : Option String
  deriving DecidableEq, Repr

/-- Python truthiness of the `filename` attribute (`None` and `""` are
falsy). -/
def pyTruthy : Option String → Bool
  | Option.none => false
  | some s => !(s = "")

/-- The state of a `BaseFormatter`: `filename` (from
`options.output_file`), the nullable open file handle `output_fd`
(modelled by its descriptor), and the `newline` string. -/
structure BaseFormatter where
  filename : Option String
  output_fd : Option Nat
  newline : String
  deriving DecidableEq, Repr

/-- Embedding of `BaseFormatter.__init__`: stores the output-file option as
`filename`, leaves `output_fd` null and sets `newline` to the default
`"\n"`. -/
def BaseFormatter.init (options : Options) : BaseFormatter :=
  { filename := options.output_file, output_fd := Option.none, newline := "\n" }

/-- Embedding of `BaseFormatter.start`: when `self.filename` is truthy,
opens it for writing — the fresh handle `fd` is supplied by the
environment — and stores it in `output_fd`; otherwise does nothing. -/
def BaseFormatter.start (f : BaseFormatter) (fd : Nat) : BaseFormatter :=
  if pyTruthy f.filename then { f with output_fd := some fd } else f

/-- Where a `write` call sent its text: to an open file handle, or to the
process's standard output stream. -/
inductive WriteTarget where
  | toFile (fd : Nat) (text : String) : WriteTarget
  | toStdout (text : String) : WriteTarget
  deriving DecidableEq, Repr

/-- Embedding of `BaseFormatter.write(line)`: if `output_fd` is not `None`,
`output_fd.write(line + self.newline)`; else `print(line)`, which emits
`line` to standard output followed by Python's default line terminator
`"\n"` (not `self.newline`). -/
def BaseFormatter.write (f : BaseFormatter) (line : String) : WriteTarget :=
  match f.output_fd with
  | some fd => WriteTarget.toFile fd (line ++ f.newline)
  | Option.none => WriteTarget.toStdout (line ++ "\n")

/-- Embedding of `BaseFormatter.stop`: if `output_fd` is not `None`, closes
it and sets it to `None`.  Returns `(post-state, whether close was
attempted)`. -/
def BaseFormatter.stop (f : BaseFormatter) : BaseFormatter × Bool :=
  match f.output_fd with
  | some _ => ({ f with output_fd := Option.none }, true)
  | Option.none => (f, false)

/-- An entry point whose resolution succeeds with the object `v`. -/
def entryPointTo (v : PyObj) : EntryPoint :=
  { hasResolveAndRequire := true, requireResult := Option.none,
    resolveResult := Except.ok v, loadTrue := Except.ok v,
    loadFalse := Except.ok v }

/-- An entry point whose resolution raises `e`. -/
def entryPointRaising (e : Exc) : EntryPoint :=
  { hasResolveAndRequire := true, requireResult := Option.none,
    resolveResult := Except.error e, loadTrue := Except.error e,
    loadFalse := Except.error e }

/-- A not-yet-loaded checker plugin with the given declared parameters. -/
def mkCheckPlugin (nm : String) (params : List String) : Plugin :=
  { name := nm, entry_point := entryPointTo (PyObj.obj 0 Option.none),
    plugin := PyObj.none, parameters := params }

/-- If `_load` raises, the plugin state is unchanged: the only mutation,
`self._plugin = ...`, is sequenced after the call that raised. -/
theorem load_aux_error_state (p : Plugin) (v : Bool) (e : Exc) (p1 : Plugin)
    (n : Nat) (h : p.load_aux v = (some e, p1, n)) : p1 = p := by
  unfold Plugin.load_aux at h
  repeat' split at h
  all_goals simp_all

/-- C4: for every Plugin whose entry-point resolution (or requirement
verification) raises an exception, `load_plugin` raises a
`FailedToLoadPlugin` error carrying that plugin and the original
exception, and the plugin's loaded object remains unset (`None`) after the
failed call: the post-state is the pre-state. -/
theorem load_plugin_wraps_failure (p : Plugin) (v : Bool) (e : Exc)
    (p1 : Plugin) (n : Nat)
    (hunset : p.plugin = PyObj.none)
    (hraise : p.load_aux v = (some e, p1, n)) :
    p.load_plugin v = (some (LoadError.failedToLoadPlugin p e), p, n) ∧
    (p.load_plugin v).2.1.plugin = PyObj.none := by
  have hp : p1 = p := load_aux_error_state p v e p1 n hraise
  rw [hp] at hraise
  have hmain : p.load_plugin v =
      (some (LoadError.failedToLoadPlugin p e), p, n) := by
    unfold Plugin.load_plugin
    simp [hunset, PyObj.isNone, hraise]
  exact ⟨hmain, by rw [hmain]; exact hunset⟩

/-- A plugin whose entry-point resolution raises. -/
def failingPlugin : Plugin :=
  { name := "bad", entry_point := entryPointRaising (Exc.other 7),
    plugin := PyObj.none, parameters := ["tree"] }

/-- Witness for C4 at a concrete failing plugin. -/
theorem load_plugin_wraps_failure_witness :
    failingPlugin.load_plugin false =
      (some (LoadError.failedToLoadPlugin failingPlugin (Exc.other 7)),
       failingPlugin, 1) ∧
    (failingPlugin.load_plugin false).2.1.plugin = PyObj.none :=
  load_plugin_wraps_failure failingPlugin false (Exc.other 7) failingPlugin 1
    rfl rfl

/-- A plugin whose entry point resolves, without raising, to Python `None`. -/
def noneResolvingPlugin : Plugin :=
  { name := "resolves-to-none", entry_point := entryPointTo PyObj.none,
    plugin := PyObj.none, parameters := [] }

/-- C7 counterexample: a plugin whose resolution succeeds but yields `None`.
The first `load_plugin` call returns normally (a successful load) with one
resolution call, yet the second call resolves again — one more resolution
call — so the resolution call count over the two loads is 2, not at most
one, and the second call does perform a new resolution. -/
theorem load_plugin_none_resolution_reloads :
    (noneResolvingPlugin.load_plugin false).1 = Option.none ∧
    (noneResolvingPlugin.load_plugin false).2.2 = 1 ∧
    (((noneResolvingPlugin.load_plugin false).2.1).load_plugin false).2.2 = 1 ∧
    ¬((noneResolvingPlugin.load_plugin false).2.2 +
       (((noneResolvingPlugin.load_plugin false).2.1).load_plugin false).2.2
        ≤ 1) := by
  refine ⟨rfl, rfl, rfl, ?_⟩
  decide

/-- C7 amended: the cached loaded object, once non-`None`, is never
replaced or reloaded — any later `load_plugin` call performs zero
resolution calls and returns the state unchanged.  In particular, after a
load that populates the cache with a non-`None` object, a second call
performs no new resolution.  (When resolution yields `None` the cache is
indistinguishable from "unset" and a later call resolves again.) -/
theorem load_plugin_no_reload_once_populated (p : Plugin) (v w : Bool)
    (p1 : Plugin) (n : Nat)
    (_hload : p.load_plugin v = (Option.none, p1, n))
    (hpop : p1.plugin ≠ PyObj.none) :
    p1.load_plugin w = (Option.none, p1, 0) := by
  unfold Plugin.load_plugin
  have : (p1.plugin).isNone = false := by
    cases hp : p1.plugin with
    | none => exact absurd hp hpop
    | obj i hk => rfl
  simp [this]

/-- A plugin whose entry point resolves to a proper (non-`None`) object. -/
def okPlugin : Plugin :=
  { name := "good", entry_point := entryPointTo (PyObj.obj 3 Option.none),
    plugin := PyObj.none, parameters := ["tree"] }

/-- Witness for C7's amended theorem at a concrete plugin: after the first
load populates the cache with a non-`None` object, the second call is a
no-op with zero resolution calls. -/
theorem load_plugin_no_reload_once_populated_witness :
    ({ okPlugin with plugin := PyObj.obj 3 Option.none } : Plugin).load_plugin
      false = (Option.none, { okPlugin with plugin := PyObj.obj 3 Option.none }, 0) :=
  load_plugin_no_reload_once_populated okPlugin false false
    { okPlugin with plugin := PyObj.obj 3 Option.none } 1 rfl (by decide)



/-- C5: if `load_plugins` raises (because some individual plugin load
raised), `plugins_loaded` is never set to true — so a retry is possible —
and if it returns normally, `plugins_loaded` is true and every plugin's
load succeeded (the whole `loadAll` pass was error-free whenever a load
pass actually ran). -/
theorem load_plugins_flag_semantics (m : PluginTypeManager)
    (err : Option LoadError) (m1 : PluginTypeManager) (n : Nat)
    (h : m.load_plugins = (err, m1, n)) :
    (err ≠ Option.none → m1.plugins_loaded = false) ∧
    (err = Option.none → m1.plugins_loaded = true) ∧
    (err = Option.none → m.plugins_loaded = false →
      (loadAll m.plugins).1 = Option.none) := by
  unfold PluginTypeManager.load_plugins at h
  by_cases hl : m.plugins_loaded
  · simp [hl] at h
    refine ⟨fun herr => ?_, fun _ => ?_, fun _ hfalse => ?_⟩
    · exact absurd h.1.symm herr
    · rw [← h.2.1, hl]
    · rw [hl] at hfalse; cases hfalse
  · simp [hl] at h
    cases hload : loadAll m.plugins with
    | mk e rest =>
      cases e with
      | none =>
        rw [hload] at h
        simp at h
        refine ⟨fun herr => absurd h.1.symm herr, fun _ => ?_, fun _ _ => ?_⟩
        · rw [← h.2.1]
        · rfl
      | some e0 =>
        rw [hload] at h
        simp at h
        refine ⟨fun _ => ?_, fun hnone => ?_, fun hnone _ => ?_⟩
        · rw [← h.2.1]
        · rw [← h.1] at hnone; cases hnone
        · rw [← h.1] at hnone; cases hnone

/-- A failing plugin reserved for the C5 witness manager. -/
def failingPlugin5 : Plugin :=
  { name := "bad5", entry_point := entryPointRaising (Exc.other 9),
    plugin := PyObj.none, parameters := ["tree"] }

/-- A manager holding one failing plugin, not yet bulk-loaded. -/
def failingManager : PluginTypeManager :=
  { plugins := [failingPlugin5], plugins_loaded := false }

/-- Witness for C5 at a concrete manager whose only plugin fails to load:
the bulk load raises and `plugins_loaded` stays false. -/
theorem load_plugins_flag_semantics_witness :
    (failingManager.load_plugins).2.1.plugins_loaded = false :=
  (load_plugins_flag_semantics failingManager
      (some (LoadError.failedToLoadPlugin failingPlugin5 (Exc.other 9)))
      { plugins := [failingPlugin5], plugins_loaded := false } 1 rfl).1
    (by decide)

/-- C6: `load_plugins` is idempotent — once `plugins_loaded` is true, a
call returns immediately, leaves the manager unchanged, and invokes zero
plugin load/resolution work. -/
theorem load_plugins_idempotent (m : PluginTypeManager)
    (h : m.plugins_loaded = true) :
    m.load_plugins = (Option.none, m, 0) := by
  unfold PluginTypeManager.load_plugins
  simp [h]

/-- A manager already marked loaded, holding a plugin that would perform a
resolution if its load were invoked. -/
def loadedManager : PluginTypeManager :=
  { plugins := [okPlugin], plugins_loaded := true }

/-- Witness for C6 at a concrete already-loaded manager: the call is a
no-op with zero resolution calls. -/
theorem load_plugins_idempotent_witness :
    loadedManager.load_plugins = (Option.none, loadedManager, 0) :=
  load_plugins_idempotent loadedManager rfl

/-- When every plugin declares at least one parameter, `checks_expecting`
returns exactly the plugins whose first declared parameter equals the
requested name. -/
theorem checksExpectingList_all_nonempty (arg : String) (ps : List Plugin)
    (h : ∀ p ∈ ps, p.parameters ≠ []) :
    checksExpectingList arg ps =
      Except.ok (ps.filter (fun p => decide (p.parameters.head? = some arg))) := by
  induction ps with
  | nil => rfl
  | cons p rest ih =>
    have hp : p.parameters ≠ [] := h p (by simp)
    have hrest := ih (fun q hq => h q (by simp [hq]))
    cases hpar : p.parameters with
    | nil => exact absurd hpar hp
    | cons a t =>
      by_cases harg : arg = a
      · subst harg
        simp [checksExpectingList, hpar, hrest]
      · have hne : ¬(a = arg) := fun hh => harg hh.symm
        simp [checksExpectingList, hpar, harg, hrest, hne]

/-- When some plugin declares zero parameters, forcing `checks_expecting`
raises `IndexError` (from `plugin.parameters[0]`). -/
theorem checksExpectingList_with_empty (arg : String) (ps : List Plugin)
    (h : ∃ p ∈ ps, p.parameters = []) :
    checksExpectingList arg ps = Except.error Exc.indexError := by
  induction ps with
  | nil => simp at h
  | cons p rest ih =>
    cases hpar : p.parameters with
    | nil => simp [checksExpectingList, hpar]
    | cons a t =>
      have hrest : ∃ q ∈ rest, q.parameters = [] := by
        rcases h with ⟨q, hq, hqe⟩
        rcases List.mem_cons.1 hq with hq1 | hq2
        · rw [hq1, hpar] at hqe; cases hqe
        · exact ⟨q, hq2, hqe⟩
      have hr := ih hrest
      by_cases harg : arg = a
      · subst harg
        simp [checksExpectingList, hpar, hr]
      · simp [checksExpectingList, hpar, harg, hr]

/-- A checker plugin declaring zero parameters. -/
def zeroParamPlugin : Plugin := mkCheckPlugin "zero" []

/-- A Checkers manager whose only plugin declares zero parameters. -/
def zeroParamCheckers : Checkers :=
  { plugins := [zeroParamPlugin], ast_cache := Option.none,
    logical_cache := Option.none, physical_cache := Option.none }

/-- C1 counterexample: on a manager holding a zero-parameter plugin,
`checks_expecting("tree")` does not skip the plugin with no failure — it
raises `IndexError` (and so does `ast_plugins`), rather than returning the
empty selection the claim predicts. -/
theorem checks_expecting_zero_param_raises :
    zeroParamCheckers.checks_expecting "tree" = Except.error Exc.indexError ∧
    zeroParamCheckers.ast_plugins = (Except.error Exc.indexError, true) ∧
    ¬(zeroParamCheckers.checks_expecting "tree" = Except.ok []) := by
  refine ⟨rfl, rfl, ?_⟩
  decide

/-- C1 amended: `checks_expecting(argument_name)` yields exactly the
plugins whose first declared parameter equals that name PROVIDED every
plugin declares at least one parameter; a plugin whose parameters list is
empty is not skipped — it makes the whole iteration raise `IndexError`, so
it reaches no classification list only because the classification itself
fails.  Any successful result is exactly the first-parameter filter. -/
theorem checks_expecting_characterization (c : Checkers)
    (argument_name : String) :
    ((∀ p ∈ c.plugins, p.parameters ≠ []) →
      c.checks_expecting argument_name =
        Except.ok (c.plugins.filter
          (fun p => decide (p.parameters.head? = some argument_name)))) ∧
    ((∃ p ∈ c.plugins, p.parameters = []) →
      c.checks_expecting argument_name = Except.error Exc.indexError) ∧
    (∀ ps, c.checks_expecting argument_name = Except.ok ps →
      ps = c.plugins.filter
        (fun p => decide (p.parameters.head? = some argument_name))) := by
  refine ⟨fun h => checksExpectingList_all_nonempty argument_name c.plugins h,
          fun h => checksExpectingList_with_empty argument_name c.plugins h,
          fun ps hps => ?_⟩
  by_cases hall : ∀ p ∈ c.plugins, p.parameters ≠ []
  · have hok := checksExpectingList_all_nonempty argument_name c.plugins hall
    unfold Checkers.checks_expecting at hps
    rw [hok] at hps
    injection hps with hps
    exact hps.symm
  · push_neg at hall
    rcases hall with ⟨q, hq, hqe⟩
    have herr := checksExpectingList_with_empty argument_name c.plugins
      ⟨q, hq, hqe⟩
    unfold Checkers.checks_expecting at hps
    rw [herr] at hps
    cases hps

/-- A checker plugin expecting the syntax tree. -/
def treePlugin : Plugin := mkCheckPlugin "A" ["tree"]

/-- A checker plugin expecting logical lines. -/
def logicalPlugin : Plugin := mkCheckPlugin "B" ["logical_line", "blank_lines"]

/-- A Checkers manager whose plugins all declare parameters. -/
def smallCheckers : Checkers :=
  { plugins := [treePlugin, logicalPlugin], ast_cache := Option.none,
    logical_cache := Option.none, physical_cache := Option.none }

/-- Witness for C1's amended theorem at concrete managers, discharging all
three hypotheses. -/
theorem checks_expecting_characterization_witness :
    smallCheckers.checks_expecting "tree" =
      Except.ok (smallCheckers.plugins.filter
        (fun p => decide (p.parameters.head? = some "tree"))) ∧
    zeroParamCheckers.checks_expecting "tree" = Except.error Exc.indexError ∧
    ([treePlugin] : List Plugin) = smallCheckers.plugins.filter
        (fun p => decide (p.parameters.head? = some "tree")) :=
  ⟨(checks_expecting_characterization smallCheckers "tree").1 (by decide),
   (checks_expecting_characterization zeroParamCheckers "tree").2.1 (by decide),
   (checks_expecting_characterization smallCheckers "tree").2.2 [treePlugin]
     (by decide)⟩

/-- Second access behaviour of `ast_plugins`: after a successful access
returning list `l` and post-state `c1`, another access returns the same
content but re-runs the classification exactly when `l` is empty (the
cache guard is the Python truthiness of the cached list). -/
theorem ast_plugins_second_access (c : Checkers) (l : List Plugin)
    (c1 : Checkers) (b : Bool) (h : c.ast_plugins = (Except.ok (l, c1), b)) :
    c1.ast_plugins = (Except.ok (l, c1), l.isEmpty) := by
  have hbody : ∀ (x : Checkers), x.ast_plugins =
      (if (x.ast_cache.getD []).isEmpty then
        match checksExpectingList "tree" x.plugins with
        | Except.error e => (Except.error e, true)
        | Except.ok ps => (Except.ok (ps, { x with ast_cache := some ps }), true)
      else (Except.ok (x.ast_cache.getD [], x), false)) := fun x => rfl
  rw [hbody] at h
  rw [hbody]
  by_cases hc : (c.ast_cache.getD []).isEmpty
  · rw [if_pos hc] at h
    cases hrun : checksExpectingList "tree" c.plugins with
    | error e => rw [hrun] at h; simp at h
    | ok ps =>
      rw [hrun] at h
      have h1 := congrArg Prod.fst h
      have h2 := congrArg Prod.snd h
      simp only at h1 h2
      injection h1 with h1
      injection h1 with hl hc1
      subst hl
      subst hc1
      cases ps with
      | nil => simp [hrun]
      | cons q qs => simp
  · rw [if_neg hc] at h
    have h1 := congrArg Prod.fst h
    have h2 := congrArg Prod.snd h
    simp only at h1 h2
    injection h1 with h1
    injection h1 with hl hc1
    subst hl
    subst hc1
    rw [if_neg hc]
    simp only [Bool.not_eq_true] at hc
    rw [hc]

/-- Second access behaviour of `logical_line_plugins` (same caching scheme
as `ast_plugins`). -/
theorem logical_line_plugins_second_access (c : Checkers) (l : List Plugin)
    (c1 : Checkers) (b : Bool)
    (h : c.logical_line_plugins = (Except.ok (l, c1), b)) :
    c1.logical_line_plugins = (Except.ok (l, c1), l.isEmpty) := by
  have hbody : ∀ (x : Checkers), x.logical_line_plugins =
      (if (x.logical_cache.getD []).isEmpty then
        match checksExpectingList "logical_line" x.plugins with
        | Except.error e => (Except.error e, true)
        | Except.ok ps =>
          (Except.ok (ps, { x with logical_cache := some ps }), true)
      else (Except.ok (x.logical_cache.getD [], x), false)) := fun x => rfl
  rw [hbody] at h
  rw [hbody]
  by_cases hc : (c.logical_cache.getD []).isEmpty
  · rw [if_pos hc] at h
    cases hrun : checksExpectingList "logical_line" c.plugins with
    | error e => rw [hrun] at h; simp at h
    | ok ps =>
      rw [hrun] at h
      have h1 := congrArg Prod.fst h
      have h2 := congrArg Prod.snd h
      simp only at h1 h2
      injection h1 with h1
      injection h1 with hl hc1
      subst hl
      subst hc1
      cases ps with
      | nil => simp [hrun]
      | cons q qs => simp
  · rw [if_neg hc] at h
    have h1 := congrArg Prod.fst h
    have h2 := congrArg Prod.snd h
    simp only at h1 h2
    injection h1 with h1
    injection h1 with hl hc1
    subst hl
    subst hc1
    rw [if_neg hc]
    simp only [Bool.not_eq_true] at hc
    rw [hc]

/-- Second access behaviour of `physical_line_plugins` (same caching scheme
as `ast_plugins`). -/
theorem physical_line_plugins_second_access (c : Checkers) (l : List Plugin)
    (c1 : Checkers) (b : Bool)
    (h : c.physical_line_plugins = (Except.ok (l, c1), b)) :
    c1.physical_line_plugins = (Except.ok (l, c1), l.isEmpty) := by
  have hbody : ∀ (x : Checkers), x.physical_line_plugins =
      (if (x.physical_cache.getD []).isEmpty then
        match checksExpectingList "physical_line" x.plugins with
        | Except.error e => (Except.error e, true)
        | Except.ok ps =>
          (Except.ok (ps, { x with physical_cache := some ps }), true)
      else (Except.ok (x.physical_cache.getD [], x), false)) := fun x => rfl
  rw [hbody] at h
  rw [hbody]
  by_cases hc : (c.physical_cache.getD []).isEmpty
  · rw [if_pos hc] at h
    cases hrun : checksExpectingList "physical_line" c.plugins with
    | error e => rw [hrun] at h; simp at h
    | ok ps =>
      rw [hrun] at h
      have h1 := congrArg Prod.fst h
      have h2 := congrArg Prod.snd h
      simp only at h1 h2
      injection h1 with h1
      injection h1 with hl hc1
      subst hl
      subst hc1
      cases ps with
      | nil => simp [hrun]
      | cons q qs => simp
  · rw [if_neg hc] at h
    have h1 := congrArg Prod.fst h
    have h2 := congrArg Prod.snd h
    simp only at h1 h2
    injection h1 with h1
    injection h1 with hl hc1
    subst hl
    subst hc1
    rw [if_neg hc]
    simp only [Bool.not_eq_true] at hc
    rw [hc]

/-- A Checkers manager with no plugins and no cache attribute set. -/
def emptyCheckers : Checkers :=
  { plugins := [], ast_cache := Option.none,
    logical_cache := Option.none, physical_cache := Option.none }

/-- `emptyCheckers` after a first `ast_plugins` access cached the empty
list. -/
def emptyCheckersCached : Checkers :=
  { plugins := [], ast_cache := some [],
    logical_cache := Option.none, physical_cache := Option.none }

/-- C2 counterexample: on a manager whose first `ast_plugins` access
computes the empty list, the second access re-runs the classification
(the recomputation flag is `true` again), contradicting "a second access
returns the cached list without re-running the classification ...
including when the first computed list was empty". -/
theorem ast_plugins_empty_cache_recomputes :
    emptyCheckers.ast_plugins = (Except.ok ([], emptyCheckersCached), true) ∧
    emptyCheckersCached.ast_plugins =
      (Except.ok ([], emptyCheckersCached), true) := by
  exact ⟨rfl, rfl⟩

/-- C2 amended: for each classification cache, after a successful access
returning list `l`, a second access returns the same list content and the
same state, but the classification is re-run exactly when `l` is empty;
only a non-empty computed list is never recomputed. -/
theorem classification_cache_second_access (c : Checkers) (l : List Plugin)
    (c1 : Checkers) (b : Bool) :
    (c.ast_plugins = (Except.ok (l, c1), b) →
      c1.ast_plugins = (Except.ok (l, c1), l.isEmpty)) ∧
    (c.logical_line_plugins = (Except.ok (l, c1), b) →
      c1.logical_line_plugins = (Except.ok (l, c1), l.isEmpty)) ∧
    (c.physical_line_plugins = (Except.ok (l, c1), b) →
      c1.physical_line_plugins = (Except.ok (l, c1), l.isEmpty)) :=
  ⟨ast_plugins_second_access c l c1 b,
   logical_line_plugins_second_access c l c1 b,
   physical_line_plugins_second_access c l c1 b⟩

/-- A Checkers manager holding one tree plugin and one logical-line
plugin, used by the C2 witness. -/
def witnessCheckers : Checkers :=
  { plugins := [treePlugin, logicalPlugin], ast_cache := Option.none,
    logical_cache := Option.none, physical_cache := Option.none }

/-- `witnessCheckers` after its three classification accesses. -/
def witnessCheckersAst : Checkers :=
  { witnessCheckers with ast_cache := some [treePlugin] }

/-- `witnessCheckers` after a `logical_line_plugins` access. -/
def witnessCheckersLog : Checkers :=
  { witnessCheckers with logical_cache := some [logicalPlugin] }

/-- `witnessCheckers` after a `physical_line_plugins` access. -/
def witnessCheckersPhys : Checkers :=
  { witnessCheckers with physical_cache := some [] }

/-- Witness for C2's amended theorem at concrete managers: non-empty
cached lists are served without recomputation (flag `false`), while the
empty physical-line list is recomputed (flag `true`). -/
theorem classification_cache_second_access_witness :
    witnessCheckersAst.ast_plugins =
      (Except.ok ([treePlugin], witnessCheckersAst), false) ∧
    witnessCheckersLog.logical_line_plugins =
      (Except.ok ([logicalPlugin], witnessCheckersLog), false) ∧
    witnessCheckersPhys.physical_line_plugins =
      (Except.ok ([], witnessCheckersPhys), true) :=
  ⟨(classification_cache_second_access witnessCheckers [treePlugin]
      witnessCheckersAst true).1 rfl,
   (classification_cache_second_access witnessCheckers [logicalPlugin]
      witnessCheckersLog true).2.1 rfl,
   (classification_cache_second_access witnessCheckers []
      witnessCheckersPhys true).2.2 rfl⟩

/-- A formatter with no output file whose `newline` was changed to
`"\r\n"`. -/
def crlfFormatter : BaseFormatter :=
  { filename := Option.none, output_fd := Option.none, newline := "\r\n" }

/-- C3 counterexample: with `filename` unset and `newline = "\r\n"`, the
emitted stdout line is suffixed with `"\n"` — `print`'s default terminator
— and not with the formatter's `newline` string, refuting "in every case
the emitted line is suffixed with the formatter's newline string, whatever
value newline holds". -/
theorem write_stdout_ignores_newline :
    crlfFormatter.write "E101 text" =
      WriteTarget.toStdout ("E101 text" ++ "\n") ∧
    ¬(crlfFormatter.write "E101 text" =
      WriteTarget.toStdout ("E101 text" ++ crlfFormatter.newline)) := by
  refine ⟨rfl, ?_⟩
  intro h
  injection h with h
  have : "E101 text\n" = "E101 text\r\n" := h
  simp at this

/-- C3 amended: `write` dispatches on `output_fd`: if it is unset the line
goes to standard output and never to a file — and when `filename` is not
truthy, `start` leaves `output_fd` unset, so this covers the
filename-unset case — but the stdout line is terminated by `"\n"`
(`print`'s terminator), not by `newline`; only the file branch suffixes
the formatter's `newline` string. -/
theorem write_dispatch_and_suffix (f : BaseFormatter) (line : String)
    (fd fd2 : Nat) (opts : Options) :
    (f.output_fd = Option.none →
      f.write line = WriteTarget.toStdout (line ++ "\n")) ∧
    (f.output_fd = some fd →
      f.write line = WriteTarget.toFile fd (line ++ f.newline)) ∧
    (pyTruthy opts.output_file = false →
      (BaseFormatter.init opts).start fd2 = BaseFormatter.init opts ∧
      ((BaseFormatter.init opts).start fd2).output_fd = Option.none) := by
  refine ⟨fun h => ?_, fun h => ?_, fun h => ?_⟩
  · unfold BaseFormatter.write
    rw [h]
  · unfold BaseFormatter.write
    rw [h]
  · have hstart : (BaseFormatter.init opts).start fd2 = BaseFormatter.init opts := by
      unfold BaseFormatter.start BaseFormatter.init
      simp only
      rw [show pyTruthy opts.output_file = false from h]
      simp
    exact ⟨hstart, by rw [hstart]; rfl⟩

/-- A formatter writing to an open file handle with a custom newline. -/
def fileFormatter : BaseFormatter :=
  { filename := some "out.txt", output_fd := some 3, newline := "\r\n" }

/-- Parsed options with no output file. -/
def noFileOptions : Options := { output_file := Option.none }

/-- Witness for C3's amended theorem at concrete formatters, discharging
all three hypotheses. -/
theorem write_dispatch_and_suffix_witness :
    crlfFormatter.write "E1" = WriteTarget.toStdout ("E1" ++ "\n") ∧
    fileFormatter.write "E1" =
      WriteTarget.toFile 3 ("E1" ++ fileFormatter.newline) ∧
    ((BaseFormatter.init noFileOptions).start 5 =
      BaseFormatter.init noFileOptions ∧
     ((BaseFormatter.init noFileOptions).start 5).output_fd = Option.none) :=
  ⟨(write_dispatch_and_suffix crlfFormatter "E1" 0 5 noFileOptions).1 rfl,
   (write_dispatch_and_suffix fileFormatter "E1" 3 5 noFileOptions).2.1 rfl,
   (write_dispatch_and_suffix crlfFormatter "E1" 0 5 noFileOptions).2.2 rfl⟩

/-- C9: after `stop()` the output handle is null; a second `stop()` is a
no-op that does not attempt another close; and any `write` performed after
`stop` goes to standard output — even when `filename` is set — because
`write` dispatches on `output_fd` being non-null, not on `filename`. -/
theorem stop_nulls_fd_write_stdout (f : BaseFormatter) :
    ((f.stop).1).output_fd = Option.none ∧
    ((f.stop).1).stop = ((f.stop).1, false) ∧
    ∀ line : String,
      ((f.stop).1).write line = WriteTarget.toStdout (line ++ "\n") := by
  cases hfd : f.output_fd with
  | none =>
    refine ⟨?_, ?_, fun line => ?_⟩
    · simp [BaseFormatter.stop, hfd]
    · simp [BaseFormatter.stop, hfd]
    · simp [BaseFormatter.stop, BaseFormatter.write, hfd]
  | some fd =>
    refine ⟨?_, ?_, fun line => ?_⟩
    · simp [BaseFormatter.stop, hfd]
    · simp [BaseFormatter.stop, hfd]
    · simp [BaseFormatter.stop, BaseFormatter.write, hfd]

/-- C8: if the loaded object exposes no options-parsing hook,
`provide_options` does nothing; if it exposes one, the hook is first
called with `(optmanager, options, extra_args)`, and if that call is
rejected with a `TypeError` (wrong arity), the hook is called again with
exactly the `options` value alone. -/
theorem provide_options_hook_dispatch (p : Plugin)
    (optmanager options extra_args : Val) :
    ((p.plugin).parseOptionsAttr = Option.none →
      p.provide_options optmanager options extra_args = (Option.none, [])) ∧
    (∀ h : ParseOptionsHook, (p.plugin).parseOptionsAttr = some h →
      (h.onThree = Option.none →
        p.provide_options optmanager options extra_args =
          (Option.none, [HookCall.three optmanager options extra_args])) ∧
      (∀ e : Exc, h.onThree = some e → e.isTypeError = true →
        p.provide_options optmanager options extra_args =
          (h.onOne, [HookCall.three optmanager options extra_args,
                     HookCall.one options]))) := by
  refine ⟨fun hattr => ?_, fun h hattr => ⟨fun h3 => ?_, fun e h3 hte => ?_⟩⟩
  · unfold Plugin.provide_options provideOptionsHook
    rw [hattr]
  · unfold Plugin.provide_options provideOptionsHook
    rw [hattr]
    simp [h3]
  · unfold Plugin.provide_options provideOptionsHook
    rw [hattr]
    simp [h3, hte]

/-- A plugin whose loaded object's hook rejects the three-argument call
with an arity `TypeError` and accepts the single-argument form. -/
def oneArgHookPlugin : Plugin :=
  { name := "po", entry_point := entryPointTo (PyObj.obj 1 Option.none),
    plugin := PyObj.obj 1 (some { onThree := some (Exc.typeError false),
                                  onOne := Option.none }),
    parameters := ["tree"] }

/-- Witness for C8 at a concrete plugin: the three-argument call is
rejected for wrong arity, the fallback succeeds and receives exactly the
`options` value (11). -/
theorem provide_options_hook_dispatch_witness :
    oneArgHookPlugin.provide_options 10 11 12 =
      (Option.none, [HookCall.three 10 11 12, HookCall.one 11]) :=
  ((provide_options_hook_dispatch oneArgHookPlugin 10 11 12).2
      { onThree := some (Exc.typeError false), onOne := Option.none }
      rfl).2 (Exc.typeError false) rfl rfl

/-- C10: every `TypeError` raised by the three-argument hook call —
including one raised from inside the hook's own body after it was entered
(`raisedInsideBody = true`) — triggers the single-argument fallback; the
fallback's outcome is final: success means `provide_options` returns
normally, and any exception it raises (a second `TypeError` included)
propagates to the caller unmodified. -/
theorem provide_options_typeerror_fallback (p : Plugin)
    (h : ParseOptionsHook) (optmanager options extra_args : Val)
    (inside : Bool)
    (hattr : (p.plugin).parseOptionsAttr = some h)
    (hthree : h.onThree = some (Exc.typeError inside)) :
    (h.onOne = Option.none →
      p.provide_options optmanager options extra_args =
        (Option.none, [HookCall.three optmanager options extra_args,
                       HookCall.one options])) ∧
    (∀ e2 : Exc, h.onOne = some e2 →
      p.provide_options optmanager options extra_args =
        (some e2, [HookCall.three optmanager options extra_args,
                   HookCall.one options])) := by
  have hmain : p.provide_options optmanager options extra_args =
      (h.onOne, [HookCall.three optmanager options extra_args,
                 HookCall.one options]) := by
    unfold Plugin.provide_options provideOptionsHook
    rw [hattr]
    simp [hthree, Exc.isTypeError]
  exact ⟨fun h1 => by rw [hmain, h1], fun e2 h1 => by rw [hmain, h1]⟩

/-- A plugin whose hook raises a `TypeError` from inside its own body on
the three-argument call, and whose single-argument fallback raises a
second `TypeError`. -/
def bodyTypeErrorPlugin : Plugin :=
  { name := "po2", entry_point := entryPointTo (PyObj.obj 2 Option.none),
    plugin := PyObj.obj 2 (some { onThree := some (Exc.typeError true),
                                  onOne := some (Exc.typeError false) }),
    parameters := ["tree"] }

/-- Witness for C10 at a concrete plugin: a body-raised `TypeError` still
triggers the fallback, and the fallback's own `TypeError` propagates
unmodified. -/
theorem provide_options_typeerror_fallback_witness :
    bodyTypeErrorPlugin.provide_options 1 2 3 =
      (some (Exc.typeError false), [HookCall.three 1 2 3, HookCall.one 2]) :=
  (provide_options_typeerror_fallback bodyTypeErrorPlugin
      { onThree := some (Exc.typeError true), onOne := some (Exc.typeError false) }
      1 2 3 true rfl rfl).2 (Exc.typeError false) rfl
